import Mathlib

/-!
Shallow embedding of the "Power - Check your battery" Anki add-on
(`__init__.py` and `settings.py`) and proofs of its specification claims.

Python machine-level details are modelled as follows: Python `int` and the
values of `psutil`'s battery fields become `ℤ` / `ℚ`; `None` becomes
`Option.none`; Python dicts keyed by strings become functions
`String → Option ConfigVal`; the decimal rendering of the two float
format expressions (`{h:.1f}` and `opacity/100.0`) is modelled by explicit
rational/decimal rendering functions.
-/

namespace Power

/-- Python `int(q)` truncation toward zero on a rational. -/
def pyInt (q : ℚ) : ℤ :=
  if q < 0 then -((-q.num).ediv q.den) else q.num.ediv q.den

/-- Round a rational to the nearest integer, ties to even.  This is the
rounding applied by Python's fixed-point float formatting. -/
def roundHalfEven (q : ℚ) : ℤ :=
  let f : ℤ := q.num.ediv q.den
  let r : ℚ := q - (f : ℚ)
  if r < 1/2 then f
  else if 1/2 < r then f + 1
  else if f % 2 = 0 then f else f + 1

/-- Models the Python f-string directive `{h:.1f}` (one decimal digit,
round half to even) for the nonnegative hour values produced in
`get_battery_info`. -/
def fmt1f (q : ℚ) : String :=
  let n := roundHalfEven (q * 10)
  toString (n.ediv 10) ++ "." ++ toString (n.emod 10)

/-- The battery reading returned by `psutil.sensors_battery()`:
`percent` (a Python number), `power_plugged`, and `secsleft`
(`none` models Python `None`). -/
structure Battery where
  percent : ℚ
  power_plugged : Bool
  secsleft : Option ℤ
deriving Repr, DecidableEq

/-- The dictionary returned by `get_battery_info` in `__init__.py`. -/
structure BatteryInfo where
  percent : ℤ
  charging : Bool
  status_text : String
  time_left_long : String
  time_left_charging : String
  is_fully_charged : Bool
  icon_name : String
deriving Repr, DecidableEq

/-- `get_battery_info` from `__init__.py` (lines 109-147).  The argument is
the result of `psutil.sensors_battery()`; `none` models a falsy reading. -/
def get_battery_info (sensors : Option Battery) : Option BatteryInfo :=
  match sensors with
  | none => none
  | some battery =>
    let secs_left := battery.secsleft
    let is_fully_charged : Bool := decide (battery.percent = 100) && battery.power_plugged
    if battery.power_plugged then
      let tl : String × String :=
        match secs_left with
        | some s =>
          if 0 < s ∧ is_fully_charged = false then
            (fmt1f ((s : ℚ) / 3600) ++ " hours for full charge",
             "• " ++ toString (s.ediv 60) ++ " min left")
          else ("Ready to go", "")
        | none => ("Ready to go", "")
      some { percent := pyInt battery.percent
             charging := battery.power_plugged
             status_text := "Charging"
             time_left_long := tl.1
             time_left_charging := tl.2
             is_fully_charged := is_fully_charged
             icon_name := "battery_bolt" }
    else
      let tl : String :=
        match secs_left with
        | some s =>
          if 0 < s then "~" ++ fmt1f ((s : ℚ) / 3600) ++ " hours left"
          else "No estimate"
        | none => "No estimate"
      some { percent := pyInt battery.percent
             charging := battery.power_plugged
             status_text := "On Battery"
             time_left_long := tl
             time_left_charging := ""
             is_fully_charged := is_fully_charged
             icon_name := if battery.percent ≤ 20 then "battery_alert" else "battery" }

/-- A value stored in the add-on's configuration mapping: the config holds
strings (layout, theme, colors) and integers (`bg_opacity`). -/
inductive ConfigVal where
  | str (s : String)
  | int (n : ℤ)
deriving Repr, DecidableEq

/-- The configuration mapping (a Python dict keyed by strings). -/
abbrev Config := String → Option ConfigVal

/-- Python dict assignment `c[k] = v`. -/
def setConfig (c : Config) (k : String) (v : ConfigVal) : Config :=
  fun q => if q = k then some v else c q

/-- Python `config.get(k, dflt)` for the string-valued color keys. -/
def config_get_str (c : Config) (k : String) (dflt : String) : String :=
  match c k with
  | some (.str s) => s
  | _ => dflt

/-- Python `str.startswith` (as used on `sys.platform`). -/
def pyStartswith (s pre : String) : Bool := pre.toList.isPrefixOf s.toList

/-- The platform-folder choice made at module initialization in
`__init__.py` (lines 13-21): `platform` models `sys.platform` and
`maxsize_gt_2pow32` models `sys.maxsize > 2**32`. -/
def plat_folder (platform : String) (maxsize_gt_2pow32 : Bool) : Option String :=
  if pyStartswith platform "win32" then
    some (if maxsize_gt_2pow32 then "win64" else "win32")
  else if pyStartswith platform "darwin" then some "macos"
  else if pyStartswith platform "linux" then some "linux"
  else none

/-- `os.path.join` on two components, with the separator fixed to `/`. -/
def os_join (a b : String) : String := a ++ "/" ++ b

/-- The `sys.path` mutation at module initialization in `__init__.py`
(lines 23-32): insert the platform-specific lib folder if recognized,
then the base lib folder, each only when not already present. -/
def add_lib_paths (platform : String) (maxsize_gt_2pow32 : Bool)
    (base_lib_folder : String) (sys_path : List String) : List String :=
  let p1 : List String :=
    match plat_folder platform maxsize_gt_2pow32 with
    | some pf =>
      let target_lib := os_join base_lib_folder pf
      if target_lib ∈ sys_path then sys_path else target_lib :: sys_path
    | none => sys_path
  if base_lib_folder ∈ p1 then p1 else base_lib_folder :: p1

/-- Whether a character is a hexadecimal digit accepted by `int(_, 16)`. -/
def isHexDigitChar (c : Char) : Bool :=
  c.isDigit || ('a' ≤ c && c ≤ 'f') || ('A' ≤ c && c ≤ 'F')

/-- The numeric value of a hexadecimal digit character. -/
def hexVal (c : Char) : ℕ :=
  if c.isDigit then c.toNat - '0'.toNat
  else if 'a' ≤ c && c ≤ 'f' then c.toNat - 'a'.toNat + 10
  else c.toNat - 'A'.toNat + 10

/-- Models Python `int(s, 16)` on the plain digit strings arising in
`hex_to_rgba`: succeeds exactly on nonempty all-hex-digit strings
(sign, whitespace and underscore forms never arise at the call site). -/
def pyIntHex (cs : List Char) : Option ℕ :=
  if cs ≠ [] ∧ cs.all isHexDigitChar then
    some (cs.foldl (fun acc c => 16 * acc + hexVal c) 0)
  else none

/-- Python slice `cs[i:j]`. -/
def pySlice (cs : List Char) (i j : ℕ) : List Char :=
  (cs.drop i).take (j - i)

/-- Models the decimal rendering, by Python's f-string, of the float
`opacity_percent / 100.0` computed in `hex_to_rgba` (exact for the
configuration's opacity range 0-100). -/
def floatRepr100 (k : ℤ) : String :=
  let n := k.natAbs
  let ip := n / 100
  let fp := n % 100
  (if k < 0 then "-" else "") ++ toString ip ++
    (if fp = 0 then ".0"
     else if fp % 10 = 0 then "." ++ toString (fp / 10)
     else if fp < 10 then ".0" ++ toString fp
     else "." ++ toString fp)

/-- `hex_to_rgba` from `__init__.py` (lines 77-84).  `none` models the
`ValueError` that `int(_, 16)` raises on malformed input. -/
def hex_to_rgba (hex_color : String) (opacity_percent : ℤ) : Option String :=
  let stripped := hex_color.toList.dropWhile (fun c => c = '#')
  let digits :=
    if stripped.length = 3 then
      match stripped with
      | [a, b, c] => [a, a, b, b, c, c]
      | _ => stripped
    else stripped
  match pyIntHex (pySlice digits 0 2), pyIntHex (pySlice digits 2 4),
      pyIntHex (pySlice digits 4 6) with
  | some r, some g, some b =>
    some ("rgba(" ++ toString r ++ ", " ++ toString g ++ ", " ++ toString b ++
      ", " ++ floatRepr100 opacity_percent ++ ")")
  | _, _, _ => none

/-- The dark-mode decision of `add_battery_widget` (`__init__.py`
lines 159-161): start from the host's night-mode flag, then let the
config's `"theme"` entry force light or dark. -/
def widget_is_dark_mode (config : Config) (night_mode : Bool) : Bool :=
  if config "theme" = some (.str "light") then false
  else if config "theme" = some (.str "dark") then true
  else night_mode

/-- One fill div of the layout2 segmented bar (`__init__.py` lines 283-284),
with the decimal rendering of the float width expression abstracted as `fr`. -/
def fill_html (bar_color width : String) : String :=
  "<div class=\"fill\" style=\"background-color: " ++ bar_color ++
    "; width: " ++ width ++ "%;\"></div>"

/-- One iteration of the layout2 segment loop (`__init__.py` lines 281-285):
the segment div for index `i`, containing a full fill, a proportional fill,
or no fill. -/
def layout2_segment (fr : ℚ → String) (bar_color : String) (percent : ℤ)
    (i : ℕ) : String :=
  let lower_bound : ℤ := i * 20
  let upper_bound : ℤ := ((i : ℤ) + 1) * 20
  let fill :=
    if upper_bound ≤ percent then fill_html bar_color "100"
    else if lower_bound < percent then
      fill_html bar_color (fr (((percent : ℚ) - (lower_bound : ℚ)) / 20 * 100))
    else ""
  "<div class=\"segment\">" ++ fill ++ "</div>"

/-- The `segments_html` accumulation loop of layout2 (`__init__.py`
lines 280-285). -/
def segments_html (fr : ℚ → String) (bar_color : String) (percent : ℤ) :
    String :=
  ((List.range 5).map (layout2_segment fr bar_color percent)).foldl
    (fun a b => a ++ b) ""

/-- The deck-browser content record mutated by `add_battery_widget`:
`stats` receives the widget HTML; `tree` stands for the other rendered
fields. -/
structure Content where
  tree : String
  stats : String
deriving Repr, DecidableEq

/-- `add_battery_widget` from `__init__.py` (lines 149-351), with the
HTML/CSS rendering of a battery reading abstracted as `render` (it is pure
string formatting of the fields of `BatteryInfo`): when the battery info is
missing the function returns early leaving the content untouched, otherwise
the rendered widget HTML is appended to `content.stats`. -/
def add_battery_widget (render : BatteryInfo → String)
    (sensors : Option Battery) (content : Content) : Content :=
  match get_battery_info sensors with
  | none => content
  | some battery_info =>
    { content with stats := content.stats ++ render battery_info }

/-- The state of the settings dialog read by `save_settings`
(`settings.py` lines 426-446): which radio buttons are checked, the
opacity slider's value, and the in-memory config dict. -/
structure SettingsState where
  layout2_checked : Bool
  layout3_checked : Bool
  auto_theme_checked : Bool
  light_theme_checked : Bool
  opacity_value : ℤ
  config : Config

/-- `SettingsDialog.save_settings` (`settings.py` lines 426-444): the
configuration mapping passed to `mw.addonManager.writeConfig`. -/
def save_settings (st : SettingsState) : Config :=
  let c1 :=
    if st.layout2_checked then setConfig st.config "layout" (.str "layout2")
    else if st.layout3_checked then setConfig st.config "layout" (.str "layout3")
    else setConfig st.config "layout" (.str "layout1")
  let c2 :=
    if st.auto_theme_checked then setConfig c1 "theme" (.str "auto")
    else if st.light_theme_checked then setConfig c1 "theme" (.str "light")
    else setConfig c1 "theme" (.str "dark")
  setConfig c2 "bg_opacity" (.int st.opacity_value)

/-- The state touched by `SettingsDialog.update_color_from_text`: the line
edit's text, the swatch label's styled color, and the in-memory config. -/
structure ColorEditState where
  text : String
  label_style : String
  config : Config

/-- `SettingsDialog.update_color_from_text` (`settings.py` lines 399-411),
with `QColor(...).isValid()` abstracted as the predicate `isValidColor`:
a valid text is stored in the config and shown on the swatch; an invalid
text reverts the line edit and swatch to the stored color (default
`"#ffffff"`), leaving the config untouched. -/
def update_color_from_text (isValidColor : String → Bool)
    (config_key : String) (st : ColorEditState) : ColorEditState :=
  let hex_color := st.text
  if isValidColor hex_color then
    { st with label_style := hex_color
              config := setConfig st.config config_key (.str hex_color) }
  else
    let old_color := config_get_str st.config config_key "#ffffff"
    { st with text := old_color, label_style := old_color }

/-- C2: for every battery reading, `get_battery_info` chooses the icon by
conditional branching: `icon_name` is `"battery_bolt"` whenever
`power_plugged` is true; when `power_plugged` is false, `icon_name` is
`"battery_alert"` if `percent ≤ 20` and `"battery"` otherwise. -/
theorem get_battery_info_icon_choice (b : Battery) :
    (get_battery_info (some b)).map BatteryInfo.icon_name =
      some (if b.power_plugged then "battery_bolt"
            else if b.percent ≤ 20 then "battery_alert" else "battery") := by
  cases hb : b.power_plugged <;> simp [get_battery_info, hb]

/-- C3: for every battery reading, `get_battery_info` sets `status_text` to
`"Charging"` if and only if `power_plugged` is true (even at 100%), and to
`"On Battery"` if and only if `power_plugged` is false. -/
theorem get_battery_info_status_text (b : Battery) :
    (get_battery_info (some b)).map BatteryInfo.status_text =
      some (if b.power_plugged then "Charging" else "On Battery") := by
  cases hb : b.power_plugged <;> simp [get_battery_info, hb]

/-- C4: for every battery reading, the time-remaining strings of
`get_battery_info` are: unplugged with positive known `secsleft`, a
`"~{h:.1f} hours left"` string with `h = secsleft / 3600`, else
`"No estimate"`; plugged, not fully charged, with positive known
`secsleft`, a `"{h:.1f} hours for full charge"` string and a
`time_left_charging` mentioning `secsleft // 60` minutes; plugged
otherwise (including `percent = 100`), `"Ready to go"` and an empty
`time_left_charging`. -/
theorem get_battery_info_time_left (b : Battery) :
    (get_battery_info (some b)).map
        (fun i => (i.time_left_long, i.time_left_charging)) =
      some (if b.power_plugged then
              match b.secsleft with
              | some s =>
                if 0 < s ∧ ¬ b.percent = 100 then
                  (fmt1f ((s : ℚ) / 3600) ++ " hours for full charge",
                   "• " ++ toString (s.ediv 60) ++ " min left")
                else ("Ready to go", "")
              | none => ("Ready to go", "")
            else
              match b.secsleft with
              | some s =>
                if 0 < s then
                  ("~" ++ fmt1f ((s : ℚ) / 3600) ++ " hours left", "")
                else ("No estimate", "")
              | none => ("No estimate", "")) := by
  cases hb : b.power_plugged <;> rcases hs : b.secsleft with _ | s <;>
    simp [get_battery_info, hb, hs]
  split_ifs <;> rfl

/-- C9: when the battery-sensing library reports no battery,
`get_battery_info` returns `none` and `add_battery_widget` returns early:
the rendered content (its `stats` and every other field) is unchanged and
no widget HTML is appended. -/
theorem no_battery_frame :
    get_battery_info none = none ∧
    ∀ (render : BatteryInfo → String) (content : Content),
      add_battery_widget render none content = content :=
  ⟨rfl, fun _ _ => rfl⟩

/-- C1: for every battery percentage `p` with `0 ≤ p ≤ 100`, the layout2
builder emits exactly 5 segment divs (their concatenation, in order), and
segment `i` (bounds `lower = 20*i`, `upper = 20*(i+1)`) contains a fill of
width 100% if `p ≥ upper`, a fill of width `((p - lower) / 20) * 100`
percent if `lower < p < upper`, and no fill element if `p ≤ lower`. -/
theorem segments_html_five_segments (fr : ℚ → String) (bc : String) (p : ℤ)
    (_hp0 : 0 ≤ p) (_hp1 : p ≤ 100) :
    segments_html fr bc p =
      ((((layout2_segment fr bc p 0 ++ layout2_segment fr bc p 1) ++
        layout2_segment fr bc p 2) ++ layout2_segment fr bc p 3) ++
        layout2_segment fr bc p 4) ∧
    ∀ i : ℕ, i < 5 →
      (20 * ((i : ℤ) + 1) ≤ p →
        layout2_segment fr bc p i =
          "<div class=\"segment\">" ++ fill_html bc "100" ++ "</div>") ∧
      (20 * (i : ℤ) < p → p < 20 * ((i : ℤ) + 1) →
        layout2_segment fr bc p i =
          "<div class=\"segment\">" ++
            fill_html bc (fr (((p : ℚ) - 20 * (i : ℚ)) / 20 * 100)) ++
            "</div>") ∧
      (p ≤ 20 * (i : ℤ) →
        layout2_segment fr bc p i = "<div class=\"segment\">" ++ "</div>") := by
  constructor
  · show (([0, 1, 2, 3, 4].map (layout2_segment fr bc p)).foldl
      (fun a b => a ++ b) "") = _
    simp [List.foldl]
  · intro i _
    refine ⟨fun h => ?_, fun h h2 => ?_, fun h => ?_⟩ <;>
      simp only [layout2_segment] <;> split_ifs with hA hB
    all_goals first
      | rfl
      | omega
      | (congr 3; push_cast; ring_nf)

/-- Witness for C1: at `p = 50` the hypotheses hold and segment 2 gets the
proportional fill of width `((50 - 40) / 20) * 100 = 50` percent. -/
theorem segments_html_five_segments_witness :
    (0 : ℤ) ≤ 50 ∧ (50 : ℤ) ≤ 100 ∧
    layout2_segment (fun q => toString q.num) "C" 50 2 =
      "<div class=\"segment\">" ++
        fill_html "C" (((50 : ℚ) - 20 * (2 : ℚ)) / 20 * 100).num.repr ++
        "</div>" :=
  ⟨by decide, by decide,
    (((segments_html_five_segments (fun q => toString q.num) "C" 50
      (by decide) (by decide)).2 2 (by decide)).2.1 (by decide) (by decide))⟩

/-- C5: whenever the platform starts with `"win32"`, `"darwin"` or
`"linux"`, the platform folder is respectively `win64`/`win32` (by
`sys.maxsize`), `macos`, `linux`; in that case both the OS-specific lib
directory and the base lib folder end up present in `sys.path`; on an
unrecognized platform only the base lib folder is added. -/
theorem add_lib_paths_platform_spec (platform : String) (is64 : Bool)
    (base : String) (path : List String) :
    (pyStartswith platform "win32" = true →
      plat_folder platform is64 = some (if is64 then "win64" else "win32")) ∧
    (pyStartswith platform "win32" = false → pyStartswith platform "darwin" = true →
      plat_folder platform is64 = some "macos") ∧
    (pyStartswith platform "win32" = false → pyStartswith platform "darwin" = false →
      pyStartswith platform "linux" = true →
      plat_folder platform is64 = some "linux") ∧
    (∀ pf, plat_folder platform is64 = some pf →
      os_join base pf ∈ add_lib_paths platform is64 base path ∧
      base ∈ add_lib_paths platform is64 base path) ∧
    (plat_folder platform is64 = none →
      add_lib_paths platform is64 base path =
        if base ∈ path then path else base :: path) := by
  refine ⟨fun hw => ?_, fun hw hd => ?_, fun hw hd hl => ?_,
    fun pf hpf => ?_, fun hn => ?_⟩
  · simp [plat_folder, hw]
  · simp [plat_folder, hw, hd]
  · simp [plat_folder, hw, hd, hl]
  · unfold add_lib_paths
    rw [hpf]
    dsimp only
    split_ifs with h1 h2 h3 <;> simp_all [List.mem_cons]
  · unfold add_lib_paths
    rw [hn]

/-- Witness for C5: on platform `"linux"`, the folder is `"linux"` and both
`/addon/lib/linux` and `/addon/lib` are present in the resulting path. -/
theorem add_lib_paths_platform_spec_witness :
    plat_folder "linux" true = some "linux" ∧
    os_join "/addon/lib" "linux" ∈ add_lib_paths "linux" true "/addon/lib" [] ∧
    "/addon/lib" ∈ add_lib_paths "linux" true "/addon/lib" [] := by
  have h := add_lib_paths_platform_spec "linux" true "/addon/lib" []
  have hpf : plat_folder "linux" true = some "linux" :=
    h.2.2.1 (by decide) (by decide) (by decide)
  exact ⟨hpf, (h.2.2.2.1 "linux" hpf).1, (h.2.2.2.1 "linux" hpf).2⟩

/-- C6: the configuration mapping written by `save_settings` has
`"layout"` equal to exactly one of `layout1`/`layout2`/`layout3` matching
the checked layout radio (defaulting to `layout1` when neither layout2 nor
layout3 is checked), `"theme"` equal to `auto`/`light`/`dark` matching the
checked theme radio, and `"bg_opacity"` equal to the opacity slider's
value. -/
theorem save_settings_spec (st : SettingsState) :
    save_settings st "layout" =
      some (.str (if st.layout2_checked then "layout2"
                  else if st.layout3_checked then "layout3" else "layout1")) ∧
    (st.auto_theme_checked = true →
      save_settings st "theme" = some (.str "auto")) ∧
    (st.auto_theme_checked = false → st.light_theme_checked = true →
      save_settings st "theme" = some (.str "light")) ∧
    (st.auto_theme_checked = false → st.light_theme_checked = false →
      save_settings st "theme" = some (.str "dark")) ∧
    save_settings st "bg_opacity" = some (.int st.opacity_value) := by
  refine ⟨?_, fun ha => ?_, fun ha hl => ?_, fun ha hl => ?_, ?_⟩ <;>
    unfold save_settings <;> split_ifs <;> simp_all [setConfig]

/-- Witness for C6: a dialog state with layout2 checked, the light theme
checked and opacity 42 saves `layout2`, `light` and `42`. -/
theorem save_settings_spec_witness :
    save_settings ⟨true, false, false, true, 42, fun _ => none⟩ "layout" =
      some (.str "layout2") ∧
    save_settings ⟨true, false, false, true, 42, fun _ => none⟩ "theme" =
      some (.str "light") ∧
    save_settings ⟨true, false, false, true, 42, fun _ => none⟩ "bg_opacity" =
      some (.int 42) := by
  have h := save_settings_spec ⟨true, false, false, true, 42, fun _ => none⟩
  exact ⟨h.1, h.2.2.1 rfl rfl, h.2.2.2.2⟩

/-- C8: the widget renders with forced dark styling exactly when the
config's `"theme"` is `"dark"`, with forced light styling exactly when it
is `"light"`, and otherwise (any other value, including a missing key)
follows the host's night-mode flag. -/
theorem widget_theme_override_spec (config : Config) :
    ((∀ nm : Bool, widget_is_dark_mode config nm = true) ↔
      config "theme" = some (.str "dark")) ∧
    ((∀ nm : Bool, widget_is_dark_mode config nm = false) ↔
      config "theme" = some (.str "light")) ∧
    (config "theme" ≠ some (.str "light") →
      config "theme" ≠ some (.str "dark") →
      ∀ nm : Bool, widget_is_dark_mode config nm = nm) := by
  by_cases h1 : config "theme" = some (.str "light") <;>
    by_cases h2 : config "theme" = some (.str "dark") <;>
    simp_all [widget_is_dark_mode]

/-- Witness for C8: with `"theme"` set to `"dark"` the widget is dark even
when the host is in light mode; with no `"theme"` entry it follows the
host's flag. -/
theorem widget_theme_override_spec_witness :
    widget_is_dark_mode (fun k => if k = "theme"
      then some (.str "dark") else none) false = true ∧
    widget_is_dark_mode (fun _ => none) false = false := by
  refine ⟨(widget_theme_override_spec _).1.mpr (by simp) false, ?_⟩
  exact (widget_theme_override_spec (fun _ => none)).2.2
    (by simp) (by simp) false

/-- C10: `update_color_from_text` is atomic on invalid input: when the
line edit's text is not a valid color the config is left unchanged and
the line edit (and swatch) revert to the stored color for that key
(default `"#ffffff"`); when the text is valid the config entry for that
key becomes exactly that text (other keys untouched) and the line edit
keeps its text. -/
theorem update_color_from_text_spec (valid : String → Bool) (key : String)
    (st : ColorEditState) :
    (valid st.text = false →
      (update_color_from_text valid key st).config = st.config ∧
      (update_color_from_text valid key st).text =
        config_get_str st.config key "#ffffff" ∧
      (update_color_from_text valid key st).label_style =
        config_get_str st.config key "#ffffff") ∧
    (valid st.text = true →
      (update_color_from_text valid key st).config key =
        some (.str st.text) ∧
      (∀ q, q ≠ key →
        (update_color_from_text valid key st).config q = st.config q) ∧
      (update_color_from_text valid key st).text = st.text) := by
  constructor <;> intro h <;> simp [update_color_from_text, h, setConfig]
  intro q hq
  simp [hq]

/-- Witness for C10: with validity meaning a leading `#`, the invalid text
`"oops"` leaves the config untouched and reverts to the default, and the
valid text `"#123456"` is stored under the key. -/
theorem update_color_from_text_spec_witness :
    (update_color_from_text (fun s => pyStartswith s "#") "bg_light_color"
      ⟨"oops", "x", fun _ => none⟩).config "bg_light_color" = none ∧
    (update_color_from_text (fun s => pyStartswith s "#") "bg_light_color"
      ⟨"oops", "x", fun _ => none⟩).text = "#ffffff" ∧
    (update_color_from_text (fun s => pyStartswith s "#") "bg_light_color"
      ⟨"#123456", "x", fun _ => none⟩).config "bg_light_color" =
      some (.str "#123456") := by
  have hbad := (update_color_from_text_spec (fun s => pyStartswith s "#")
    "bg_light_color" ⟨"oops", "x", fun _ => none⟩).1 (by decide)
  have hgood := (update_color_from_text_spec (fun s => pyStartswith s "#")
    "bg_light_color" ⟨"#123456", "x", fun _ => none⟩).2 (by decide)
  exact ⟨by rw [hbad.1], hbad.2.1, hgood.1⟩

/-- A hexadecimal digit character is never the stripped `'#'`. -/
lemma hex_ne_hash {a : Char} (h : isHexDigitChar a = true) : ¬ (a = '#') := by
  rintro rfl
  exact absurd h (by decide)

/-- C7: for every hex color string of 6 or 3 hex digits, with or without a
leading `'#'`, and every opacity percent `k`, `hex_to_rgba` returns
`"rgba(r, g, b, a)"` where `r`, `g`, `b` are the base-16 values of the
three digit pairs (a 3-digit input doubles each digit first) and `a` is
the rendering of `k / 100.0`. -/
theorem hex_to_rgba_spec (k : ℤ) :
    (∀ a b c d e f : Char, ∀ pre : Bool,
      ([a, b, c, d, e, f].all isHexDigitChar) = true →
      hex_to_rgba
          (String.mk (if pre then '#' :: [a, b, c, d, e, f]
                      else [a, b, c, d, e, f])) k =
        some ("rgba(" ++ toString (16 * hexVal a + hexVal b) ++ ", " ++
          toString (16 * hexVal c + hexVal d) ++ ", " ++
          toString (16 * hexVal e + hexVal f) ++ ", " ++
          floatRepr100 k ++ ")")) ∧
    (∀ a b c : Char, ∀ pre : Bool,
      ([a, b, c].all isHexDigitChar) = true →
      hex_to_rgba (String.mk (if pre then '#' :: [a, b, c] else [a, b, c])) k =
        some ("rgba(" ++ toString (16 * hexVal a + hexVal a) ++ ", " ++
          toString (16 * hexVal b + hexVal b) ++ ", " ++
          toString (16 * hexVal c + hexVal c) ++ ", " ++
          floatRepr100 k ++ ")")) := by
  constructor
  · intro a b c d e f pre h
    simp only [List.all_cons, List.all_nil, Bool.and_true,
      Bool.and_eq_true] at h
    obtain ⟨ha, hb, hc, hd, he, hf⟩ := h
    have hna := hex_ne_hash ha
    cases pre <;>
      simp [hex_to_rgba, String.toList, pySlice, pyIntHex, List.dropWhile,
        ha, hb, hc, hd, he, hf, hna]
  · intro a b c pre h
    simp only [List.all_cons, List.all_nil, Bool.and_true,
      Bool.and_eq_true] at h
    obtain ⟨ha, hb, hc⟩ := h
    have hna := hex_ne_hash ha
    cases pre <;>
      simp [hex_to_rgba, String.toList, pySlice, pyIntHex, List.dropWhile,
        ha, hb, hc, hna]

/-- Witness for C7: `"#ff8800"` at opacity 50 yields
`"rgba(255, 136, 0, 0.5)"`. -/
theorem hex_to_rgba_spec_witness :
    hex_to_rgba (String.mk ['#', 'f', 'f', '8', '8', '0', '0']) 50 =
      some "rgba(255, 136, 0, 0.5)" :=
  ((hex_to_rgba_spec 50).1 'f' 'f' '8' '8' '0' '0' true (by decide)).trans
    (by decide)

/-- Witness for C2: an unplugged battery at 15% gets the alert icon. -/
theorem get_battery_info_icon_choice_witness :
    (get_battery_info (some ⟨15, false, none⟩)).map BatteryInfo.icon_name =
      some "battery_alert" :=
  (get_battery_info_icon_choice ⟨15, false, none⟩).trans (by decide)

/-- Witness for C3: a plugged battery at 100% still reads `"Charging"`. -/
theorem get_battery_info_status_text_witness :
    (get_battery_info (some ⟨100, true, some 0⟩)).map BatteryInfo.status_text =
      some "Charging" :=
  (get_battery_info_status_text ⟨100, true, some 0⟩).trans (by decide)

/-- Witness for C4: plugged at 50% with 3600 seconds left yields the
one-hour charge estimate and a 60-minute short string. -/
theorem get_battery_info_time_left_witness :
    (get_battery_info (some ⟨50, true, some 3600⟩)).map
        (fun i => (i.time_left_long, i.time_left_charging)) =
      some ("1.0 hours for full charge", "• 60 min left") :=
  (get_battery_info_time_left ⟨50, true, some 3600⟩).trans (by
    norm_num [fmt1f, roundHalfEven]
    decide)

/-- Witness for C9: with no battery reading the content record passes
through unchanged. -/
theorem no_battery_frame_witness :
    add_battery_widget (fun _ => "widget") none ⟨"tree", "stats"⟩ =
      ⟨"tree", "stats"⟩ :=
  no_battery_frame.2 (fun _ => "widget") ⟨"tree", "stats"⟩

end Power
